import Mathlib

/-!
Verification of the configuration-resolution and style-cycling core of the
simple-grapher repository.  The definitions below are a shallow embedding of
`simple_grapher/core/config.py`, `simple_grapher/core/graph_builder.py` and
`simple_grapher/core/data_processor.py`: Python dataclasses become Lean
structures, `__post_init__` validation becomes a smart constructor returning
`Except String _`, raw YAML-derived mappings become structures whose leaves
are `Option`-valued (absent key = `none`), and floats become `Rat`.
-/

deriving instance DecidableEq for Except

namespace SimpleGrapher

/-! ## The closed sets of valid visual attribute values (config.py) -/

/-- Valid marker symbols, from LineStyleConfig.__post_init__. -/
def valid_markers : List String :=
  ["o", "s", "^", "v", "<", ">", "p", "*", "+", "x", "D", "h",
   "H", "1", "2", "3", "4", "|", "_", ".", ","]

/-- Valid dash-pattern symbols, from LineStyleConfig.__post_init__. -/
def valid_line_styles : List String := ["-", "--", "-.", ":"]

/-- Valid output formats, from OutputConfig.__post_init__. -/
def valid_formats : List String := ["png", "jpg", "jpeg", "svg", "pdf"]

/-! ## Resolved configuration model (the dataclasses of config.py) -/

structure FontsConfig where
  title_size : Int
  label_size : Int
  legend_size : Int
deriving DecidableEq, Repr

structure GridConfig where
  «show» : Bool
deriving DecidableEq, Repr

structure LineStyleConfig where
  markers : List String
  line_styles : List String
  auto_cycle : Bool
  line_width : Rat
  marker_size : Rat
deriving DecidableEq, Repr

/-- LineStyleConfig.__post_init__: dataclass construction validates the
marker symbols, the dash-pattern symbols and positivity of the numeric
fields, raising ValueError (modelled as Except.error) on the first
violation; on success the fields are stored exactly as given. -/
def LineStyleConfig.init (markers line_styles : List String)
    (auto_cycle : Bool) (line_width marker_size : Rat) :
    Except String LineStyleConfig :=
  if ¬ markers.all (fun m => m ∈ valid_markers) then
    .error "Invalid marker"
  else if ¬ line_styles.all (fun l => l ∈ valid_line_styles) then
    .error "Invalid line style"
  else if line_width ≤ 0 then
    .error "Line width must be positive"
  else if marker_size ≤ 0 then
    .error "Marker size must be positive"
  else
    .ok ⟨markers, line_styles, auto_cycle, line_width, marker_size⟩

structure StyleConfig where
  width : Int
  height : Int
  fonts : FontsConfig
  grid : GridConfig
  line_style : LineStyleConfig
deriving DecidableEq, Repr

structure AxisConfig where
  label : String
  min : Option Rat
  max : Option Rat
deriving DecidableEq, Repr

structure GraphConfig where
  title : String
  x_axis : AxisConfig
  y_axis : AxisConfig
  style : StyleConfig
deriving DecidableEq, Repr

/-- Split a character list at every '/' (the components of a POSIX path,
as Python's pathlib reads them). -/
def splitSlash (l : List Char) : List (List Char) :=
  l.foldr
    (fun c acc =>
      if c = '/' then [] :: acc else (c :: acc.headD []) :: acc.tail)
    [[]]

/-- Python's Path(...).name: the last nonempty slash-separated component. -/
def pathName (p : String) : List Char :=
  ((splitSlash p.toList).filter (fun c => ¬ c.isEmpty)).getLastD []

/-- Python's Path(...).stem: the name with its last extension removed, where
an extension is a dot at an index i with 0 < i < len(name) - 1. -/
def pathStem (p : String) : String :=
  let cs := pathName p
  let dots := (cs.enum.filter (fun ic => ic.2 = '.')).map (fun ic => ic.1)
  match dots.getLast? with
  | none => ⟨cs⟩
  | some i => if 0 < i ∧ i < cs.length - 1 then ⟨cs.take i⟩ else ⟨cs⟩

structure DataSource where
  file : String
  label : String
deriving DecidableEq, Repr

/-- DataSource.__post_init__: an empty file reference raises ValueError; an
empty label is replaced by the stem of the file. -/
def DataSource.init (file label : String) : Except String DataSource :=
  if file = "" then .error "Data source file is required"
  else .ok ⟨file, if label = "" then pathStem file else label⟩

structure OutputConfig where
  format : String
  dpi : Int
  save_path : String
deriving DecidableEq, Repr

/-- Python's str.lower over the ASCII range (the format strings the closed
set contains are ASCII). -/
def lowerStr (s : String) : String := ⟨s.toList.map Char.toLower⟩

/-- OutputConfig.__post_init__: the format, lower-cased, must belong to the
closed set of valid formats; nothing else is validated and the fields are
stored exactly as given. -/
def OutputConfig.init (format : String) (dpi : Int) (save_path : String) :
    Except String OutputConfig :=
  if lowerStr format ∈ valid_formats then .ok ⟨format, dpi, save_path⟩
  else .error "Invalid format"

structure Config where
  graph : GraphConfig
  sources : List DataSource
  output : OutputConfig
deriving DecidableEq, Repr

/-! ## Raw mappings (the dictionaries Config.from_dict consumes)

A raw mapping is arbitrarily partial: every leaf is an `Option`, `none`
standing for an absent key (from_dict reads every leaf through chained
`.get` calls, so an absent intermediate dictionary behaves exactly like all
of its leaves being absent).  Axis min/max are already optional in the
resolved model; a raw `none` there stands for absent-or-null, which
from_dict does not distinguish (`.get("min")` returns None for both). -/

structure RawFonts where
  title_size : Option Int := none
  label_size : Option Int := none
  legend_size : Option Int := none
deriving DecidableEq, Repr

structure RawGrid where
  «show» : Option Bool := none
deriving DecidableEq, Repr

structure RawLineStyle where
  markers : Option (List String) := none
  line_styles : Option (List String) := none
  auto_cycle : Option Bool := none
  line_width : Option Rat := none
  marker_size : Option Rat := none
deriving DecidableEq, Repr

structure RawStyle where
  width : Option Int := none
  height : Option Int := none
  fonts : RawFonts := {}
  grid : RawGrid := {}
  line_style : RawLineStyle := {}
deriving DecidableEq, Repr

structure RawAxis where
  label : Option String := none
  min : Option Rat := none
  max : Option Rat := none
deriving DecidableEq, Repr

structure RawGraph where
  title : Option String := none
  x_axis : RawAxis := {}
  y_axis : RawAxis := {}
  style : RawStyle := {}
deriving DecidableEq, Repr

structure RawSource where
  file : Option String := none
  label : Option String := none
deriving DecidableEq, Repr

structure RawOutput where
  format : Option String := none
  dpi : Option Int := none
  save_path : Option String := none
deriving DecidableEq, Repr

structure RawConfig where
  graph : RawGraph := {}
  sources : List RawSource := []
  output : RawOutput := {}
deriving DecidableEq, Repr

/-- The markers default Config.from_dict supplies when the
style.line_style.markers key is absent (config.py line 267). -/
def fromDictMarkersDefault : List String :=
  ["o", "s", "^", "v", "<", ">", "p", "*", "+", "x", "D", "h"]

/-- The line_styles default Config.from_dict supplies when the
style.line_style.line_styles key is absent (config.py line 271). -/
def fromDictLineStylesDefault : List String := ["-", "--", "-.", ":"]

/-- DataConfig.add_source as from_dict calls it: an absent label becomes
the stem of the file before DataSource validation (which in turn replaces
an empty label by the stem). -/
def addSource (s : RawSource) : Except String DataSource :=
  DataSource.init (s.file.getD "")
    (match s.label with
     | none => pathStem (s.file.getD "")
     | some l => l)

/-- The source-construction loop of Config.from_dict: one add_source call
per raw source, the first ValueError propagating. -/
def initSources : List RawSource → Except String (List DataSource)
  | [] => .ok []
  | s :: rest =>
    match addSource s with
    | .error e => .error e
    | .ok d =>
      match initSources rest with
      | .error e => .error e
      | .ok ds => .ok (d :: ds)

/-- The GraphConfig that Config.from_dict builds around a validated
LineStyleConfig: every other leaf is the raw value if present, else its
built-in default. -/
def resolveGraph (raw : RawConfig) (line_style : LineStyleConfig) :
    GraphConfig :=
  { title := raw.graph.title.getD ""
    x_axis :=
      { label := raw.graph.x_axis.label.getD ""
        min := raw.graph.x_axis.min
        max := raw.graph.x_axis.max }
    y_axis :=
      { label := raw.graph.y_axis.label.getD ""
        min := raw.graph.y_axis.min
        max := raw.graph.y_axis.max }
    style :=
      { width := raw.graph.style.width.getD 10
        height := raw.graph.style.height.getD 10
        fonts :=
          { title_size := raw.graph.style.fonts.title_size.getD 16
            label_size := raw.graph.style.fonts.label_size.getD 12
            legend_size := raw.graph.style.fonts.legend_size.getD 10 }
        grid := { «show» := raw.graph.style.grid.«show».getD true }
        line_style := line_style } }

/-- Config.from_dict: resolve every leaf of the raw mapping against its
built-in default, running each dataclass's construction-time validation;
the first ValueError raised propagates (Except.error). -/
def Config.from_dict (raw : RawConfig) : Except String Config :=
  match LineStyleConfig.init
      (raw.graph.style.line_style.markers.getD fromDictMarkersDefault)
      (raw.graph.style.line_style.line_styles.getD fromDictLineStylesDefault)
      (raw.graph.style.line_style.auto_cycle.getD true)
      (raw.graph.style.line_style.line_width.getD 2)
      (raw.graph.style.line_style.marker_size.getD 6) with
  | .error e => .error e
  | .ok line_style =>
    match initSources raw.sources with
    | .error e => .error e
    | .ok sources =>
      match OutputConfig.init
          (raw.output.format.getD "png")
          (raw.output.dpi.getD 300)
          (raw.output.save_path.getD "./output/graph.png") with
      | .error e => .error e
      | .ok output => .ok ⟨resolveGraph raw line_style, sources, output⟩

/-- Config.to_dict: every key is written out, so every leaf of the result
is `some`. -/
def Config.to_dict (c : Config) : RawConfig :=
  { graph :=
      { title := some c.graph.title
        x_axis :=
          { label := some c.graph.x_axis.label
            min := c.graph.x_axis.min
            max := c.graph.x_axis.max }
        y_axis :=
          { label := some c.graph.y_axis.label
            min := c.graph.y_axis.min
            max := c.graph.y_axis.max }
        style :=
          { width := some c.graph.style.width
            height := some c.graph.style.height
            fonts :=
              { title_size := some c.graph.style.fonts.title_size
                label_size := some c.graph.style.fonts.label_size
                legend_size := some c.graph.style.fonts.legend_size }
            grid := { «show» := some c.graph.style.grid.«show» }
            line_style :=
              { markers := some c.graph.style.line_style.markers
                line_styles := some c.graph.style.line_style.line_styles
                auto_cycle := some c.graph.style.line_style.auto_cycle
                line_width := some c.graph.style.line_style.line_width
                marker_size := some c.graph.style.line_style.marker_size } } }
    sources := c.sources.map (fun s => ⟨some s.file, some s.label⟩)
    output :=
      { format := some c.output.format
        dpi := some c.output.dpi
        save_path := some c.output.save_path } }

/-- The label a raw source resolves to: the supplied label when present and
non-empty, otherwise the stem of the file reference. -/
def resolvedLabel (s : RawSource) : String :=
  match s.label with
  | none => pathStem (s.file.getD "")
  | some l => if l = "" then pathStem (s.file.getD "") else l

/-- The mapping the round trip to_dict ∘ from_dict is expected to produce:
every leaf explicitly present in the input is kept, every absent leaf is
filled with the default from_dict applies (stated here field by field so
the theorem about the round trip can be read against the spec's wording). -/
def filledRaw (raw : RawConfig) : RawConfig :=
  { graph :=
      { title := some (raw.graph.title.getD "")
        x_axis :=
          { label := some (raw.graph.x_axis.label.getD "")
            min := raw.graph.x_axis.min
            max := raw.graph.x_axis.max }
        y_axis :=
          { label := some (raw.graph.y_axis.label.getD "")
            min := raw.graph.y_axis.min
            max := raw.graph.y_axis.max }
        style :=
          { width := some (raw.graph.style.width.getD 10)
            height := some (raw.graph.style.height.getD 10)
            fonts :=
              { title_size := some (raw.graph.style.fonts.title_size.getD 16)
                label_size := some (raw.graph.style.fonts.label_size.getD 12)
                legend_size :=
                  some (raw.graph.style.fonts.legend_size.getD 10) }
            grid := { «show» := some (raw.graph.style.grid.«show».getD true) }
            line_style :=
              { markers :=
                  some (raw.graph.style.line_style.markers.getD
                    fromDictMarkersDefault)
                line_styles :=
                  some (raw.graph.style.line_style.line_styles.getD
                    fromDictLineStylesDefault)
                auto_cycle :=
                  some (raw.graph.style.line_style.auto_cycle.getD true)
                line_width :=
                  some (raw.graph.style.line_style.line_width.getD 2)
                marker_size :=
                  some (raw.graph.style.line_style.marker_size.getD 6) } } }
    sources :=
      raw.sources.map (fun s => ⟨some (s.file.getD ""), some (resolvedLabel s)⟩)
    output :=
      { format := some (raw.output.format.getD "png")
        dpi := some (raw.output.dpi.getD 300)
        save_path := some (raw.output.save_path.getD "./output/graph.png") } }

/-! ## Style cycling (GraphBuilder.create_graph, graph_builder.py)

Auto-cycle mode builds the list `combined_styles` with an outer loop over
markers and an inner loop over line styles, then hands it to the rendering
backend's property cycler; manual mode indexes the two sequences
independently, guarded by emptiness checks. -/

/-- The combined_styles list of GraphBuilder.create_graph: for each marker
in order (outer loop), for each line style in order (inner loop), append
the (marker, line_style) pair. -/
def combinedStyles (markers line_styles : List String) :
    List (String × String) :=
  markers.foldl
    (fun acc marker =>
      line_styles.foldl (fun acc2 ls => acc2 ++ [(marker, ls)]) acc)
    []

/-- The cycle sequence handed to the backend cycler on a line chart in
auto-cycle mode: line styles alone (no marker) when the marker list is
empty, the combined list otherwise. -/
def autoCycleSequence (cfg : LineStyleConfig) : List (Option String × String) :=
  if cfg.markers.isEmpty then
    cfg.line_styles.map (fun ls => (none, ls))
  else
    (combinedStyles cfg.markers cfg.line_styles).map
      (fun p => (some p.1, p.2))

/-- Modelled from the spec: the external rendering backend's native
property-cycling facility (matplotlib's cycler, not part of this
repository) assigns to the series with zero-based index i element
i mod length of the configured cycle sequence. -/
def cycleAssign (cycle : List (Option String × String)) (i : Nat) :
    Option (Option String × String) :=
  cycle.get? (i % cycle.length)

/-- Manual-mode marker selection for series i (graph_builder.py lines
135-140): no marker unless the marker list is non-empty, in which case
markers[i mod len(markers)]. -/
def manualMarker (markers : List String) (i : Nat) : Option String :=
  if markers.isEmpty then none
  else markers.get? (i % markers.length)

/-- Manual-mode dash-pattern selection for series i (graph_builder.py lines
136-144): the default solid "-" unless the line-style list is non-empty, in
which case line_styles[i mod len(line_styles)].  The result is an Option:
proving it is always `some` is exactly proving that the source's modulo
indexing never falls out of bounds. -/
def manualLinestyle (line_styles : List String) (i : Nat) : Option String :=
  if line_styles.isEmpty then some "-"
  else line_styles.get? (i % line_styles.length)

/-- The (marker, dash pattern) pair a line chart applies to series i in
manual mode (auto_cycle false). -/
def manualStyle (cfg : LineStyleConfig) (i : Nat) :
    Option String × Option String :=
  (manualMarker cfg.markers i, manualLinestyle cfg.line_styles i)

/-! ## Batch data loading (DataProcessor.load_multiple_csvs) and render-plan
assembly (GraphBuilder.create_graph_from_config, line charts) -/

/-- A table as load_csv returns it: the rows of the first two columns,
renamed x and y. -/
abbrev Table := List (Rat × Rat)

/-- Modelled from the spec: the tabular loader behind load_csv
(data_processor.py) — the pandas file I/O is external to this repository;
an environment maps a file path to the normalized two-column table, or to
none when the file is unreadable, empty, or has fewer than two columns
(load_csv catches each of these and returns None). -/
def LoadEnv := String → Option Table

/-- Python dict assignment d[k] = v: replace the value in place if the key
is present (insertion order keeps the original position), append otherwise. -/
def dictInsert (k : String) (v : Table) :
    List (String × Table) → List (String × Table)
  | [] => [(k, v)]
  | (k', v') :: rest =>
    if k' = k then (k, v) :: rest else (k', v') :: dictInsert k v rest

/-- One iteration of the DataProcessor.load_multiple_csvs loop: skip a
source with no (or an empty) file path, skip a source whose load fails,
otherwise store the table under the source's label (which defaults to the
file path when absent). -/
def loadStep (env : LoadEnv) (acc : List (String × Table)) (s : RawSource) :
    List (String × Table) :=
  match s.file with
  | none => acc
  | some fp =>
    if fp = "" then acc
    else
      match env fp with
      | some df => dictInsert (s.label.getD fp) df acc
      | none => acc

/-- DataProcessor.load_multiple_csvs: fold the loop over the sources,
starting from the empty dictionary. -/
def load_multiple_csvs (env : LoadEnv) (sources : List RawSource) :
    List (String × Table) :=
  sources.foldl (loadStep env) []

/-- The (label, table) outcome of one source, spec-level: `none` when the
source is skipped (no file, empty file path, or failed load). -/
def loadedOne (env : LoadEnv) (s : RawSource) : Option (String × Table) :=
  match s.file with
  | none => none
  | some fp =>
    if fp = "" then none
    else (env fp).map (fun df => (s.label.getD fp, df))

/-- The successfully loaded sources of a batch, in input order. -/
def loadedSources (env : LoadEnv) (sources : List RawSource) :
    List (String × Table) :=
  sources.filterMap (loadedOne env)

/-- The per-series drawing instruction assembled for the rendering backend:
label and table (the style fields are resolved per index by the cycling
definitions above). -/
structure SeriesRenderPlan where
  label : String
  table : Table
deriving DecidableEq, Repr

/-- The per-series loop of GraphBuilder.create_graph on a line chart: one
plan per (label, dataframe) entry, skipping empty dataframes with a
warning. -/
def renderPlans (d : List (String × Table)) : List SeriesRenderPlan :=
  (d.filter (fun kv => ¬ kv.2.isEmpty)).map (fun kv => ⟨kv.1, kv.2⟩)

/-- GraphBuilder.create_graph_from_config on a line chart: None when the
configuration lists no sources or when no source loads; otherwise the
batch of plans assembled from the loaded dictionary. -/
def create_graph_from_config (env : LoadEnv) (sources : List RawSource) :
    Option (List SeriesRenderPlan) :=
  if sources.isEmpty then none
  else
    let dfs := load_multiple_csvs env sources
    if dfs.isEmpty then none
    else some (renderPlans dfs)

/-- The value the dictionary holds at a key (Python d[k] lookup). -/
def dictFind (k : String) : List (String × Table) → Option Table
  | [] => none
  | (k', v) :: rest => if k' = k then some v else dictFind k rest

/-- The table of the last successfully loaded source carrying a given
label, spec-level. -/
def lastLoadedWith (k : String) : List (String × Table) → Option Table
  | [] => none
  | kv :: rest =>
    match lastLoadedWith k rest with
    | some v => some v
    | none => if kv.1 = k then some kv.2 else none

/-! ## Concrete instances used by the theorems below -/

/-- The empty mapping: every key absent. -/
def emptyRaw : RawConfig := {}

/-- The configuration the empty mapping resolves to. -/
def configOfEmpty : Config :=
  ⟨⟨"", ⟨"", none, none⟩, ⟨"", none, none⟩,
    ⟨10, 10, ⟨16, 12, 10⟩, ⟨true⟩,
     ⟨fromDictMarkersDefault, fromDictLineStylesDefault, true, 2, 6⟩⟩⟩,
   [], ⟨"png", 300, "./output/graph.png"⟩⟩

/-- The spec's worked scenario in auto-cycle mode. -/
def lineDemoCfg : LineStyleConfig := ⟨["o", "s"], ["-", "--", "-."], true, 2, 6⟩

/-- The spec's worked scenario in manual mode. -/
def manualDemoCfg : LineStyleConfig :=
  ⟨["o", "s"], ["-", "--", "-."], false, 2, 6⟩

/-- A loader environment for the spec's three-source batch scenario: the
second file does not load. -/
def demoEnv : LoadEnv := fun p =>
  if p = "a.csv" then some [(1, 2)]
  else if p = "c.csv" then some [(3, 4)]
  else none

/-- The three raw sources of the batch scenario. -/
def demoSources : List RawSource :=
  [⟨some "a.csv", some "A"⟩, ⟨some "b.csv", some "B"⟩,
   ⟨some "c.csv", some "C"⟩]

/-- A loader environment under which two distinct files both load. -/
def dupEnv : LoadEnv := fun p =>
  if p = "first.csv" then some [(1, 1)]
  else if p = "second.csv" then some [(2, 2)]
  else none

/-- Two loadable sources that share one label. -/
def dupSources : List RawSource :=
  [⟨some "first.csv", some "L"⟩, ⟨some "second.csv", some "L"⟩]

/-! ## Helper lemmas -/

lemma foldl_append_inner (m : String) (ls : List String)
    (acc : List (String × String)) :
    ls.foldl (fun a l => a ++ [(m, l)]) acc = acc ++ ls.map (fun l => (m, l)) := by
  induction ls generalizing acc with
  | nil => simp
  | cons l rest ih => simp [List.foldl, ih]

lemma combinedStyles_eq (markers ls : List String) :
    combinedStyles markers ls =
      markers.flatMap (fun m => ls.map (fun l => (m, l))) := by
  have general : ∀ acc : List (String × String),
      markers.foldl
        (fun acc m => ls.foldl (fun a l => a ++ [(m, l)]) acc) acc =
      acc ++ markers.flatMap (fun m => ls.map (fun l => (m, l))) := by
    induction markers with
    | nil => intro acc; simp
    | cons m rest ih =>
      intro acc
      simp only [List.foldl_cons]
      rw [foldl_append_inner, ih, List.flatMap_cons, List.append_assoc]
  simpa [combinedStyles] using general []

lemma combinedStyles_length (markers ls : List String) :
    (combinedStyles markers ls).length = markers.length * ls.length := by
  rw [combinedStyles_eq]
  induction markers with
  | nil => simp
  | cons m rest ih => simp [ih, Nat.succ_mul, Nat.add_comm]

lemma getElem?_mod_isSome (l : List String) (i : Nat) (h : l ≠ []) :
    l[i % l.length]?.isSome = true := by
  have hlen : 0 < l.length := List.length_pos.mpr h
  have hlt : i % l.length < l.length := Nat.mod_lt _ hlen
  simp [List.getElem?_eq_getElem hlt]

/-! ## Claim theorems: style cycling -/

/-- C1: in auto-cycle mode on a line chart with a non-empty marker
sequence, the cycle sequence is the Cartesian product enumerated
marker-major (outer loop over markers, inner loop over dash patterns), and
series index i receives element i mod (m*d) of that enumeration; in
particular for markers ["o","s"] and patterns ["-","--","-."], series 0..3
receive (o,-), (o,--), (o,-.), (s,-). -/
theorem autoCycle_cartesian_product (cfg : LineStyleConfig) :
    (cfg.markers ≠ [] →
      autoCycleSequence cfg =
        cfg.markers.flatMap
          (fun m => cfg.line_styles.map (fun p => (some m, p))) ∧
      (autoCycleSequence cfg).length =
        cfg.markers.length * cfg.line_styles.length ∧
      ∀ i : Nat, cycleAssign (autoCycleSequence cfg) i =
        (autoCycleSequence cfg).get?
          (i % (cfg.markers.length * cfg.line_styles.length))) ∧
    (cycleAssign (autoCycleSequence lineDemoCfg) 0 = some (some "o", "-") ∧
     cycleAssign (autoCycleSequence lineDemoCfg) 1 = some (some "o", "--") ∧
     cycleAssign (autoCycleSequence lineDemoCfg) 2 = some (some "o", "-.") ∧
     cycleAssign (autoCycleSequence lineDemoCfg) 3 = some (some "s", "-")) := by
  constructor
  · intro h
    have hne : cfg.markers.isEmpty = false := by
      simpa [List.isEmpty_iff] using h
    have hseq : autoCycleSequence cfg =
        (combinedStyles cfg.markers cfg.line_styles).map
          (fun p => (some p.1, p.2)) := by
      simp [autoCycleSequence, hne]
    have hlen : (autoCycleSequence cfg).length =
        cfg.markers.length * cfg.line_styles.length := by
      rw [hseq]
      simp [combinedStyles_length]
    refine ⟨?_, hlen, ?_⟩
    · rw [hseq, combinedStyles_eq]
      simp [List.map_flatMap, Function.comp_def]
    · intro i
      simp [cycleAssign, hlen]
  · exact ⟨by decide, by decide, by decide, by decide⟩

/-- C2: in manual mode on a line chart, the marker for series i is
markers[i mod m] when the marker sequence is non-empty and no marker
otherwise; the dash pattern is line_styles[i mod d] when that sequence is
non-empty and the solid default "-" otherwise; the two sequences are
indexed independently of each other; in particular for markers ["o","s"]
and patterns ["-","--","-."], series 0..3 receive (o,-), (s,--), (o,-.),
(s,-). -/
theorem manualStyle_independent_indexing (cfg : LineStyleConfig) (i : Nat) :
    (cfg.markers ≠ [] →
      (manualStyle cfg i).1 = cfg.markers.get? (i % cfg.markers.length)) ∧
    (cfg.markers = [] → (manualStyle cfg i).1 = none) ∧
    (cfg.line_styles ≠ [] →
      (manualStyle cfg i).2 =
        cfg.line_styles.get? (i % cfg.line_styles.length)) ∧
    (cfg.line_styles = [] → (manualStyle cfg i).2 = some "-") ∧
    (∀ ls2 : List String,
      (manualStyle
        ⟨cfg.markers, ls2, cfg.auto_cycle, cfg.line_width, cfg.marker_size⟩
        i).1 = (manualStyle cfg i).1) ∧
    (∀ ms2 : List String,
      (manualStyle
        ⟨ms2, cfg.line_styles, cfg.auto_cycle, cfg.line_width, cfg.marker_size⟩
        i).2 = (manualStyle cfg i).2) ∧
    (manualStyle manualDemoCfg 0 = (some "o", some "-") ∧
     manualStyle manualDemoCfg 1 = (some "s", some "--") ∧
     manualStyle manualDemoCfg 2 = (some "o", some "-.") ∧
     manualStyle manualDemoCfg 3 = (some "s", some "-")) := by
  refine ⟨?_, ?_, ?_, ?_, ?_, ?_, by decide, by decide, by decide, by decide⟩
  · intro h
    simp [manualStyle, manualMarker, List.isEmpty_iff, h]
  · intro h
    simp [manualStyle, manualMarker, h]
  · intro h
    simp [manualStyle, manualLinestyle, List.isEmpty_iff, h]
  · intro h
    simp [manualStyle, manualLinestyle, h]
  · intro ls2
    simp [manualStyle]
  · intro ms2
    simp [manualStyle]

/-- C5 counterexample: dataclass construction accepts an explicitly empty
dash-pattern sequence, so "the dash-pattern sequence of every ConfigModel
accepted at construction time is non-empty" fails. -/
theorem emptyDash_accepted_counterexample :
    LineStyleConfig.init [] [] true 2 6 = .ok ⟨[], [], true, 2, 6⟩ ∧
    (⟨[], [], true, 2, 6⟩ : LineStyleConfig).line_styles = [] := by
  exact ⟨by decide, rfl⟩

/-- C5 (amended): style resolution never errors — the manual-mode indexing
sites guard on emptiness before applying the modulo, falling back to the
solid default "-" and to "no marker", so every series index yields a
defined element for every configuration, including one whose dash-pattern
sequence is empty. -/
theorem style_resolution_never_errors (cfg : LineStyleConfig) (i : Nat) :
    (manualLinestyle cfg.line_styles i).isSome = true ∧
    (manualMarker cfg.markers i).isSome = !cfg.markers.isEmpty ∧
    (cfg.line_styles = [] → manualLinestyle cfg.line_styles i = some "-") := by
  refine ⟨?_, ?_, ?_⟩
  · by_cases h : cfg.line_styles = []
    · simp [manualLinestyle, h]
    · have hne : cfg.line_styles.isEmpty = false := by
        simpa [List.isEmpty_iff] using h
      simp [manualLinestyle, hne, getElem?_mod_isSome _ _ h]
  · by_cases h : cfg.markers = []
    · simp [manualMarker, h]
    · have hne : cfg.markers.isEmpty = false := by
        simpa [List.isEmpty_iff] using h
      simp [manualMarker, hne, getElem?_mod_isSome _ _ h]
  · intro h
    simp [manualLinestyle, h]

/-! ## Claim theorems: construction-time validation -/

/-- C7: constructing a LineStyleSpec containing a marker symbol outside the
closed set of valid symbols always fails at construction time, and an
accepted construction stores the marker sequence verbatim, so an invalid
entry is never silently dropped or replaced. -/
theorem invalid_marker_construction_fails (markers line_styles : List String)
    (ac : Bool) (lw msz : Rat) :
    ((∃ m ∈ markers, m ∉ valid_markers) →
      LineStyleConfig.init markers line_styles ac lw msz =
        .error "Invalid marker") ∧
    (∀ cfg, LineStyleConfig.init markers line_styles ac lw msz = .ok cfg →
      cfg.markers = markers ∧ ∀ m ∈ cfg.markers, m ∈ valid_markers) := by
  constructor
  · rintro ⟨m, hm, hv⟩
    have hall : (markers.all (fun m => decide (m ∈ valid_markers))) = false := by
      rw [Bool.eq_false_iff]
      intro hab
      rw [List.all_eq_true] at hab
      exact hv (by simpa using hab m hm)
    unfold LineStyleConfig.init
    simp [hall]
  · intro cfg h
    unfold LineStyleConfig.init at h
    split at h
    · cases h
    · split at h
      · cases h
      · split at h
        · cases h
        · split at h
          · cases h
          · rename_i h1 h2 h3 h4
            cases h
            refine ⟨rfl, ?_⟩
            have hall := not_not.mp h1
            simpa [List.all_eq_true] using hall

/-- C8 counterexample: an OutputSpec with dpi = 0 is accepted at
construction time, so "zero or negative dpi fails with ConfigError" fails
on the code. -/
theorem output_dpi_zero_accepted_counterexample :
    OutputConfig.init "png" 0 "./output/graph.png" =
      .ok ⟨"png", 0, "./output/graph.png"⟩ := by decide

/-- C8 (amended): OutputSpec construction validates only the format; the
dpi field is never validated, so acceptance is independent of the dpi
value and any dpi — zero or negative included — is accepted together with
a valid format. -/
theorem output_dpi_not_validated (format : String) (dpi dpi2 : Int)
    (path : String) :
    ((OutputConfig.init format dpi path).isOk =
      (OutputConfig.init format dpi2 path).isOk) ∧
    (lowerStr format ∈ valid_formats →
      OutputConfig.init format dpi path = .ok ⟨format, dpi, path⟩) := by
  constructor
  · by_cases h : lowerStr format ∈ valid_formats <;>
      simp [OutputConfig.init, h, Except.isOk, Except.toBool]
  · intro h
    simp [OutputConfig.init, h]

/-- C9 counterexample: format "SVG" is accepted but stored as given —
the stored value is "SVG", not the normalized "svg". -/
theorem format_not_normalized_counterexample :
    OutputConfig.init "SVG" 300 "./output/graph.png" =
      .ok ⟨"SVG", 300, "./output/graph.png"⟩ ∧ ("SVG" : String) ≠ "svg" := by
  exact ⟨by decide, by decide⟩

/-- C9 (amended): OutputSpec construction matches the format against the
closed set case-insensitively — "SVG" with dpi 300 is accepted — but the
stored format value keeps its original case; it is not normalized. -/
theorem format_case_insensitive_unnormalized (format : String) (dpi : Int)
    (path : String) :
    ((OutputConfig.init format dpi path).isOk = true ↔
      lowerStr format ∈ valid_formats) ∧
    (∀ cfg, OutputConfig.init format dpi path = .ok cfg →
      cfg = ⟨format, dpi, path⟩) ∧
    OutputConfig.init "SVG" 300 "./output/graph.png" =
      .ok ⟨"SVG", 300, "./output/graph.png"⟩ := by
  refine ⟨?_, ?_, by decide⟩
  · by_cases h : lowerStr format ∈ valid_formats <;>
      simp [OutputConfig.init, h, Except.isOk, Except.toBool]
  · intro cfg h
    unfold OutputConfig.init at h
    split at h
    · cases h
      rfl
    · cases h

/-! ## Lemmas about from_dict's validating constructors -/

lemma lineStyleInit_ok (markers line_styles : List String) (ac : Bool)
    (lw msz : Rat) (cfg : LineStyleConfig)
    (h : LineStyleConfig.init markers line_styles ac lw msz = .ok cfg) :
    cfg = ⟨markers, line_styles, ac, lw, msz⟩ := by
  unfold LineStyleConfig.init at h
  split at h
  · cases h
  · split at h
    · cases h
    · split at h
      · cases h
      · split at h
        · cases h
        · cases h
          rfl

lemma outputInit_ok {format : String} {dpi : Int} {path : String}
    {cfg : OutputConfig} (h : OutputConfig.init format dpi path = .ok cfg) :
    cfg = ⟨format, dpi, path⟩ ∧ lowerStr format ∈ valid_formats := by
  unfold OutputConfig.init at h
  split at h
  · rename_i hv
    cases h
    exact ⟨rfl, hv⟩
  · cases h

lemma dataSourceInit_ok {file label : String} {d : DataSource}
    (h : DataSource.init file label = .ok d) :
    ¬ file = "" ∧ d = ⟨file, if label = "" then pathStem file else label⟩ := by
  unfold DataSource.init at h
  split at h
  · cases h
  · rename_i hf
    cases h
    exact ⟨hf, rfl⟩

lemma dataSourceInit_resolved (file L : String) (hf : ¬ file = "")
    (hL : L = pathStem file ∨ L ≠ "") :
    DataSource.init file L = .ok ⟨file, L⟩ := by
  unfold DataSource.init
  rw [if_neg hf]
  rcases hL with h | h
  · subst h
    by_cases hs : pathStem file = "" <;> simp [hs]
  · rw [if_neg h]

lemma resolvedLabel_cases (s : RawSource) :
    resolvedLabel s = pathStem (s.file.getD "") ∨ resolvedLabel s ≠ "" := by
  unfold resolvedLabel
  cases s.label with
  | none => exact Or.inl rfl
  | some l =>
    by_cases hl : l = ""
    · exact Or.inl (by simp [hl])
    · exact Or.inr (by simp [hl])

lemma addSource_ok {s : RawSource} {d : DataSource}
    (h : addSource s = .ok d) :
    d = ⟨s.file.getD "", resolvedLabel s⟩ ∧ ¬ s.file.getD "" = "" := by
  unfold addSource at h
  obtain ⟨hf, rfl⟩ := dataSourceInit_ok h
  refine ⟨?_, hf⟩
  unfold resolvedLabel
  cases hl : s.label with
  | none =>
    simp only [hl]
    by_cases hs : pathStem (s.file.getD "") = "" <;> simp [hs]
  | some l => simp only [hl]

lemma initSources_ok : ∀ (ss : List RawSource) (ds : List DataSource),
    initSources ss = .ok ds →
    ds = ss.map (fun s => ⟨s.file.getD "", resolvedLabel s⟩) ∧
    ∀ d ∈ ds, DataSource.init d.file d.label = .ok d := by
  intro ss
  induction ss with
  | nil =>
    intro ds h
    cases h
    exact ⟨rfl, by simp⟩
  | cons s rest ih =>
    intro ds h
    unfold initSources at h
    cases ha : addSource s with
    | error e =>
      rw [ha] at h
      cases h
    | ok d =>
      rw [ha] at h
      cases hr : initSources rest with
      | error e =>
        rw [hr] at h
        cases h
      | ok ds' =>
        rw [hr] at h
        cases h
        obtain ⟨hmap, hok⟩ := ih ds' hr
        obtain ⟨hd, hf⟩ := addSource_ok ha
        constructor
        · rw [List.map_cons, ← hmap, hd]
        · intro x hx
          cases hx with
          | head =>
            rw [hd]
            exact dataSourceInit_resolved _ _ hf (resolvedLabel_cases s)
          | tail _ hx => exact hok _ hx

lemma initSources_roundtrip : ∀ (ds : List DataSource),
    (∀ d ∈ ds, DataSource.init d.file d.label = .ok d) →
    initSources (ds.map (fun d => ⟨some d.file, some d.label⟩)) = .ok ds := by
  intro ds
  induction ds with
  | nil => intro _; rfl
  | cons d rest ih =>
    intro h
    have hd : addSource ⟨some d.file, some d.label⟩ = .ok d := h d (by simp)
    have hrest := ih (fun x hx => h x (by simp [hx]))
    simp only [List.map_cons, initSources]
    rw [hd, hrest]

/-! ## Claim theorems: layered defaulting and the round trip -/

/-- C3 (amended): for every mapping lacking the style.line_style.markers
key, from_dict resolves the marker sequence to the twelve-marker built-in
default of from_dict, and for every mapping lacking the
style.line_style.line_styles key, from_dict resolves the dash-pattern
sequence to the four-entry default ["-","--","-.",":"]; these from_dict
defaults differ from the dataclass defaults (empty, respectively ["-"]),
which apply only to direct construction. -/
theorem from_dict_absent_style_defaults (r : RawConfig) (c : Config)
    (h : Config.from_dict r = .ok c) :
    (r.graph.style.line_style.markers = none →
      c.graph.style.line_style.markers = fromDictMarkersDefault) ∧
    (r.graph.style.line_style.line_styles = none →
      c.graph.style.line_style.line_styles = fromDictLineStylesDefault) := by
  unfold Config.from_dict at h
  split at h
  · cases h
  · split at h
    · cases h
    · split at h
      · cases h
      · rename_i s1 lsc hls s2 ds hds s3 out hout
        cases h
        obtain rfl := lineStyleInit_ok _ _ _ _ _ _ hls
        constructor
        · intro hm
          simp [resolveGraph, hm]
        · intro hl
          simp [resolveGraph, hl]

/-- C3 counterexample: on the empty mapping the resolved marker sequence is
the twelve-marker from_dict default, not the documented dataclass default
(the empty sequence, "no markers"). -/
theorem from_dict_markers_default_counterexample :
    (Config.from_dict emptyRaw).map
      (fun c => c.graph.style.line_style.markers) =
      .ok fromDictMarkersDefault ∧
    fromDictMarkersDefault ≠ [] := by
  exact ⟨by decide, by decide⟩

/-- C4 (amended): for every mapping m accepted by from_mapping,
to_mapping(from_mapping(m)) keeps every leaf explicitly present in m and
fills every absent leaf with from_mapping's built-in default (for markers
and line_styles these are from_dict's own defaults, which differ from the
data-model's documented dataclass defaults; an absent or empty source
label is filled with the file's stem), and the round trip is idempotent:
from_mapping maps the produced mapping back to exactly the same resolved
configuration, so repeating the round trip reproduces the same mapping. -/
theorem to_dict_from_dict_round_trip (r : RawConfig) (c : Config)
    (h : Config.from_dict r = .ok c) :
    Config.to_dict c = filledRaw r ∧
    Config.from_dict (Config.to_dict c) = .ok c := by
  unfold Config.from_dict at h
  split at h
  · cases h
  · split at h
    · cases h
    · split at h
      · cases h
      · rename_i s1 lsc hls s2 ds hds s3 out hout
        cases h
        obtain rfl := lineStyleInit_ok _ _ _ _ _ _ hls
        obtain ⟨hmap, hok⟩ := initSources_ok _ _ hds
        obtain ⟨rfl, hfmt⟩ := outputInit_ok hout
        constructor
        · rw [hmap]
          simp [Config.to_dict, filledRaw, resolveGraph, List.map_map,
            Function.comp_def]
        · unfold Config.from_dict
          simp only [Config.to_dict, resolveGraph, Option.getD_some]
          rw [hls]
          rw [initSources_roundtrip ds hok]
          rw [hout]

/-- C4 counterexample: on the empty mapping the round trip fills the
absent dash-pattern key with ["-","--","-.",":"], not with its documented
default, the single-entry solid sequence ["-"]. -/
theorem round_trip_default_counterexample :
    (Config.from_dict emptyRaw).map
      (fun c => (Config.to_dict c).graph.style.line_style.line_styles) =
      .ok (some ["-", "--", "-.", ":"]) ∧
    some ["-", "--", "-.", ":"] ≠ some ["-"] := by
  exact ⟨by decide, by decide⟩

/-- C3 witness: the empty mapping lacks both style keys and resolves to
from_dict's defaults. -/
theorem from_dict_absent_style_defaults_witness :
    Config.from_dict emptyRaw = .ok configOfEmpty ∧
    ((emptyRaw.graph.style.line_style.markers = none →
       configOfEmpty.graph.style.line_style.markers = fromDictMarkersDefault) ∧
     (emptyRaw.graph.style.line_style.line_styles = none →
       configOfEmpty.graph.style.line_style.line_styles =
         fromDictLineStylesDefault)) :=
  ⟨by decide,
    from_dict_absent_style_defaults emptyRaw configOfEmpty (by decide)⟩

/-- C4 witness: the round-trip theorem instantiated at the empty mapping. -/
theorem to_dict_from_dict_round_trip_witness :
    Config.from_dict emptyRaw = .ok configOfEmpty ∧
    (Config.to_dict configOfEmpty = filledRaw emptyRaw ∧
     Config.from_dict (Config.to_dict configOfEmpty) = .ok configOfEmpty) :=
  ⟨by decide,
    to_dict_from_dict_round_trip emptyRaw configOfEmpty (by decide)⟩

/-! ## Lemmas about the loading dictionary -/

lemma dictInsert_ne_nil (k : String) (v : Table) (d : List (String × Table)) :
    dictInsert k v d ≠ [] := by
  cases d with
  | nil => simp [dictInsert]
  | cons kv rest =>
    obtain ⟨k', v'⟩ := kv
    unfold dictInsert
    split <;> simp

lemma mem_keys_dictInsert {x k : String} {v : Table} {d : List (String × Table)}
    (h : x ∈ (dictInsert k v d).map Prod.fst) :
    x = k ∨ x ∈ d.map Prod.fst := by
  induction d with
  | nil => simpa [dictInsert] using h
  | cons kv rest ih =>
    obtain ⟨k', v'⟩ := kv
    unfold dictInsert at h
    by_cases hk : k' = k
    · rw [if_pos hk] at h
      simp only [List.map_cons, List.mem_cons] at h ⊢
      rcases h with h | h
      · exact Or.inl h
      · exact Or.inr (Or.inr h)
    · rw [if_neg hk] at h
      simp only [List.map_cons, List.mem_cons] at h ⊢
      rcases h with h | h
      · exact Or.inr (Or.inl h)
      · rcases ih h with h2 | h2
        · exact Or.inl h2
        · exact Or.inr (Or.inr h2)

lemma nodup_keys_dictInsert {k : String} {v : Table}
    {d : List (String × Table)} (h : (d.map Prod.fst).Nodup) :
    ((dictInsert k v d).map Prod.fst).Nodup := by
  induction d with
  | nil => simp [dictInsert]
  | cons kv rest ih =>
    obtain ⟨k', v'⟩ := kv
    simp only [List.map_cons, List.nodup_cons] at h
    obtain ⟨hk', hrest⟩ := h
    unfold dictInsert
    by_cases hk : k' = k
    · subst hk
      rw [if_pos rfl]
      simp only [List.map_cons, List.nodup_cons]
      exact ⟨hk', hrest⟩
    · rw [if_neg hk]
      simp only [List.map_cons, List.nodup_cons]
      refine ⟨?_, ih hrest⟩
      intro hmem
      rcases mem_keys_dictInsert hmem with rfl | hmem2
      · exact hk rfl
      · exact hk' hmem2

lemma dictInsert_fresh {k : String} {v : Table} {d : List (String × Table)}
    (h : k ∉ d.map Prod.fst) : dictInsert k v d = d ++ [(k, v)] := by
  induction d with
  | nil => rfl
  | cons kv rest ih =>
    obtain ⟨k', v'⟩ := kv
    simp only [List.map_cons, List.mem_cons] at h
    push_neg at h
    unfold dictInsert
    rw [if_neg (fun hh => h.1 hh.symm), ih h.2]
    rfl

lemma dictFind_dictInsert (x k : String) (v : Table)
    (d : List (String × Table)) :
    dictFind x (dictInsert k v d) =
      if k = x then some v else dictFind x d := by
  induction d with
  | nil => rfl
  | cons kv rest ih =>
    obtain ⟨k', v'⟩ := kv
    unfold dictInsert
    by_cases hk : k' = k
    · subst hk
      rw [if_pos rfl]
      unfold dictFind
      by_cases hx : k' = x <;> simp [hx]
    · rw [if_neg hk]
      unfold dictFind
      by_cases hx : k' = x
      · subst hx
        rw [if_pos rfl, if_neg (fun hh => hk hh.symm), if_pos rfl]
      · rw [if_neg hx, if_neg hx, ih]

lemma loadStep_eq (env : LoadEnv) (acc : List (String × Table))
    (s : RawSource) :
    loadStep env acc s =
      match loadedOne env s with
      | none => acc
      | some kv => dictInsert kv.1 kv.2 acc := by
  obtain ⟨file, label⟩ := s
  unfold loadStep loadedOne
  cases file with
  | none => rfl
  | some fp =>
    by_cases hf : fp = ""
    · simp [hf]
    · simp only [if_neg hf]
      cases env fp <;> rfl

lemma loadedSources_cons (env : LoadEnv) (s : RawSource)
    (rest : List RawSource) :
    loadedSources env (s :: rest) =
      match loadedOne env s with
      | none => loadedSources env rest
      | some kv => kv :: loadedSources env rest := by
  unfold loadedSources
  rw [List.filterMap_cons]
  cases loadedOne env s <;> rfl

lemma foldl_loadStep_nodup (env : LoadEnv) :
    ∀ (l : List RawSource) (acc : List (String × Table)),
    (∀ kv ∈ loadedSources env l, kv.1 ∉ acc.map Prod.fst) →
    ((loadedSources env l).map Prod.fst).Nodup →
    l.foldl (loadStep env) acc = acc ++ loadedSources env l := by
  intro l
  induction l with
  | nil =>
    intro acc _ _
    simp [loadedSources]
  | cons s rest ih =>
    intro acc hdisj hnodup
    rw [List.foldl_cons, loadStep_eq]
    rw [loadedSources_cons] at hdisj hnodup ⊢
    cases ho : loadedOne env s with
    | none =>
      rw [ho] at hdisj hnodup
      exact ih acc hdisj hnodup
    | some kv =>
      obtain ⟨k, v⟩ := kv
      rw [ho] at hdisj hnodup
      have hdisj1 : ∀ kv2 ∈ (k, v) :: loadedSources env rest,
          kv2.1 ∉ acc.map Prod.fst := hdisj
      have hnodup1 : (((k, v) :: loadedSources env rest).map Prod.fst).Nodup :=
        hnodup
      show List.foldl (loadStep env) (dictInsert k v acc) rest =
        acc ++ (k, v) :: loadedSources env rest
      simp only [List.map_cons, List.nodup_cons] at hnodup1
      obtain ⟨hknotin, hnodup2⟩ := hnodup1
      have hkfresh : k ∉ acc.map Prod.fst := hdisj1 (k, v) (.head _)
      rw [dictInsert_fresh hkfresh]
      have hdisj2 : ∀ kv2 ∈ loadedSources env rest,
          kv2.1 ∉ (acc ++ [(k, v)]).map Prod.fst := by
        intro kv2 hkv2
        simp only [List.map_append, List.mem_append, List.map_cons,
          List.map_nil, List.mem_singleton]
        push_neg
        refine ⟨hdisj1 kv2 (.tail _ hkv2), ?_⟩
        intro hk2
        exact hknotin (hk2 ▸ List.mem_map_of_mem Prod.fst hkv2)
      rw [ih (acc ++ [(k, v)]) hdisj2 hnodup2]
      simp

lemma foldl_loadStep_nil_iff (env : LoadEnv) :
    ∀ (l : List RawSource) (acc : List (String × Table)),
    (l.foldl (loadStep env) acc = [] ↔
      acc = [] ∧ loadedSources env l = []) := by
  intro l
  induction l with
  | nil =>
    intro acc
    simp [loadedSources]
  | cons s rest ih =>
    intro acc
    rw [List.foldl_cons, loadStep_eq, loadedSources_cons]
    cases ho : loadedOne env s with
    | none => exact ih acc
    | some kv =>
      obtain ⟨k, v⟩ := kv
      show (List.foldl (loadStep env) (dictInsert k v acc) rest = []) ↔
        acc = [] ∧ (k, v) :: loadedSources env rest = []
      rw [ih]
      constructor
      · rintro ⟨h1, -⟩
        exact absurd h1 (dictInsert_ne_nil _ _ _)
      · rintro ⟨-, h2⟩
        cases h2

lemma nodup_keys_foldl (env : LoadEnv) :
    ∀ (l : List RawSource) (acc : List (String × Table)),
    (acc.map Prod.fst).Nodup →
    ((l.foldl (loadStep env) acc).map Prod.fst).Nodup := by
  intro l
  induction l with
  | nil =>
    intro acc h
    simpa using h
  | cons s rest ih =>
    intro acc h
    rw [List.foldl_cons, loadStep_eq]
    cases loadedOne env s with
    | none => exact ih acc h
    | some kv => exact ih _ (nodup_keys_dictInsert h)

lemma dictFind_foldl (env : LoadEnv) (x : String) :
    ∀ (l : List RawSource) (acc : List (String × Table)),
    dictFind x (l.foldl (loadStep env) acc) =
      match lastLoadedWith x (loadedSources env l) with
      | some v => some v
      | none => dictFind x acc := by
  intro l
  induction l with
  | nil =>
    intro acc
    simp [loadedSources, lastLoadedWith]
  | cons s rest ih =>
    intro acc
    rw [List.foldl_cons, loadStep_eq, loadedSources_cons]
    cases ho : loadedOne env s with
    | none => exact ih acc
    | some kv =>
      obtain ⟨k, v⟩ := kv
      show dictFind x (List.foldl (loadStep env) (dictInsert k v acc) rest) =
        match lastLoadedWith x ((k, v) :: loadedSources env rest) with
        | some w => some w
        | none => dictFind x acc
      rw [ih (dictInsert k v acc), dictFind_dictInsert]
      cases hlast : lastLoadedWith x (loadedSources env rest) with
      | some w =>
        show some w = match lastLoadedWith x ((k, v) :: loadedSources env rest)
          with | some w => some w | none => dictFind x acc
        unfold lastLoadedWith
        rw [hlast]
      | none =>
        show (if k = x then some v else dictFind x acc) =
          match lastLoadedWith x ((k, v) :: loadedSources env rest) with
          | some w => some w
          | none => dictFind x acc
        unfold lastLoadedWith
        rw [hlast]
        by_cases hk : k = x <;> simp [hk]

/-! ## Claim theorems: batch assembly -/

/-- C6 (amended): given an ordered batch of sources, those that fail to
load are skipped and batch assembly produces exactly one render plan per
successfully loaded source carrying a distinct label (a later source with
the same label replaces an earlier one) whose table is non-empty, and the
whole operation fails outright exactly when zero sources load
successfully. -/
theorem batch_skips_failures (env : LoadEnv) (sources : List RawSource)
    (hnodup : ((loadedSources env sources).map Prod.fst).Nodup)
    (hne : ∀ kv ∈ loadedSources env sources, kv.2 ≠ []) :
    (create_graph_from_config env sources = none ↔
      loadedSources env sources = []) ∧
    (∀ plans, create_graph_from_config env sources = some plans →
      plans.length = (loadedSources env sources).length) := by
  have hload : load_multiple_csvs env sources = loadedSources env sources := by
    simpa [load_multiple_csvs] using
      foldl_loadStep_nodup env sources [] (by simp) hnodup
  have hplanlen : (renderPlans (loadedSources env sources)).length =
      (loadedSources env sources).length := by
    unfold renderPlans
    rw [List.filter_eq_self.mpr ?_]
    · simp
    · intro kv hkv
      simpa [List.isEmpty_iff] using hne kv hkv
  by_cases hs : sources.isEmpty
  · rw [List.isEmpty_iff] at hs
    subst hs
    constructor
    · simp [create_graph_from_config, loadedSources]
    · intro plans hplans
      simp [create_graph_from_config] at hplans
  · have hs2 : sources.isEmpty = false := by
      simpa using hs
    by_cases hl : loadedSources env sources = []
    · have hdfs : (load_multiple_csvs env sources).isEmpty = true := by
        simp [hload, hl]
      constructor
      · simp [create_graph_from_config, hs2, hdfs, hl]
      · intro plans hplans
        simp [create_graph_from_config, hs2, hdfs] at hplans
    · have hdfs : (load_multiple_csvs env sources).isEmpty = false := by
        simpa [hload, List.isEmpty_iff] using hl
      have hcreate : create_graph_from_config env sources =
          some (renderPlans (loadedSources env sources)) := by
        simp [create_graph_from_config, hs2, hdfs, hload, hl]
      constructor
      · simp only [hcreate]
        constructor
        · intro hcontra
          cases hcontra
        · intro hcontra
          exact absurd hcontra hl
      · intro plans hplans
        rw [hcreate] at hplans
        cases hplans
        exact hplanlen

/-- C6 witness: in the spec's three-source scenario where the second
source fails to load, the batch is not a failure and contains exactly two
render plans. -/
theorem batch_skips_failures_witness :
    ((loadedSources demoEnv demoSources).map Prod.fst).Nodup ∧
    (∀ kv ∈ loadedSources demoEnv demoSources, kv.2 ≠ []) ∧
    ((create_graph_from_config demoEnv demoSources = none ↔
       loadedSources demoEnv demoSources = []) ∧
     (∀ plans, create_graph_from_config demoEnv demoSources = some plans →
       plans.length = (loadedSources demoEnv demoSources).length)) :=
  ⟨by decide, by decide,
    batch_skips_failures demoEnv demoSources (by decide) (by decide)⟩

/-- C6 counterexample: two loadable sources sharing one label yield a
single render plan, so "exactly one render plan per successfully loaded
source" fails when labels collide. -/
theorem batch_duplicate_label_counterexample :
    (loadedSources dupEnv dupSources).length = 2 ∧
    create_graph_from_config dupEnv dupSources = some [⟨"L", [(2, 2)]⟩] ∧
    (create_graph_from_config dupEnv dupSources).map List.length = some 1 := by
  exact ⟨by decide, by decide, by decide⟩

/-- C10: batch loading keys its result by series label — the dictionary's
keys are distinct, the entry at a label is the table of the last
successfully loaded source carrying that label (later sources replace
earlier ones), and a batch whose loaded sources share a label yields fewer
plans than loaded sources (two loaded, one plan in the concrete
instance). -/
theorem load_keyed_by_label (env : LoadEnv) (sources : List RawSource) :
    ((load_multiple_csvs env sources).map Prod.fst).Nodup ∧
    (∀ lbl, dictFind lbl (load_multiple_csvs env sources) =
      match lastLoadedWith lbl (loadedSources env sources) with
      | some v => some v
      | none => none) ∧
    ((loadedSources dupEnv dupSources).length = 2 ∧
     (renderPlans (load_multiple_csvs dupEnv dupSources)).length = 1) := by
  refine ⟨?_, ?_, by decide, by decide⟩
  · exact nodup_keys_foldl env sources [] (by simp)
  · intro lbl
    have h := dictFind_foldl env lbl sources []
    simpa [load_multiple_csvs, dictFind] using h

end SimpleGrapher
